import Mathlib

/-!
Verification of the NerveCenter node-file validator (ncchecknodefile.py).

The script is a single-pass line scanner.  Each line is stripped of
surrounding whitespace and split at the first space character
(Python str.partition with a single-space separator) into a keyword and a
remainder.  Recognized lines mutate a small global state: three counters,
three per-record variables (id, name, start line, each possibly unset,
i.e. Python None), three duplicate-detection dictionaries, and the console
output.  Python string concatenation with None raises TypeError and a
dictionary lookup of an absent key raises KeyError; both are modelled with
an Except error, since the only exception handler in the script is the one
for FileNotFoundError around the open — every other exception raised while
opening, reading, or scanning propagates out of the program.
-/

/-- Python runtime exceptions that the scanning loop can raise (they are not
caught by the script, whose only handler is for FileNotFoundError). -/
inductive PyErr where
  | typeError
  | keyError
deriving DecidableEq

/-- Operating-system-level exceptions that open or the line iteration can
raise besides FileNotFoundError.  The script has no handler for any of
them, so they propagate out of the program. -/
inductive OsErr where
  | permissionError
  | isADirectoryError
  | unicodeDecodeError
deriving DecidableEq

/-- An exception that escapes the program: either one raised by the
scanning loop body or one raised by open / the read iteration.  Python
then prints a traceback and the process exits with status 1, without the
fatal message and without the summary line. -/
inductive Uncaught where
  | py (e : PyErr)
  | io (e : OsErr)
deriving DecidableEq

/-- Characters removed by Python str.strip() on ASCII input. -/
def pyIsSpace (c : Char) : Bool :=
  c = ' ' || c = '\t' || c = '\n' || c = '\x0d' || c = '\x0b' || c = '\x0c'

/-- Python line.strip(): drop whitespace from both ends. -/
def pyStrip (s : List Char) : List Char :=
  ((s.dropWhile pyIsSpace).reverse.dropWhile pyIsSpace).reverse

/-- Python line.partition(" ") restricted to the two components the script
uses: elements[0] (text before the first space) and elements[2] (text after
it, empty when there is no space). -/
def pyPart : List Char → List Char × List Char
  | [] => ([], [])
  | c :: cs =>
    if c = ' ' then ([], cs)
    else (c :: (pyPart cs).1, (pyPart cs).2)

/-- Decimal rendering of a line number, Python str(line_number). -/
def natChars (n : Nat) : List Char :=
  (Nat.repr n).toList

/-- A Python dict keyed by strings whose stored values may be None
(the script stores node_start_line and node_name, which can be unset).
Lookup returns none when the key is absent (Python KeyError / `in` test). -/
def dlookup : List (List Char × Option (List Char)) → List Char → Option (Option (List Char))
  | [], _ => none
  | (k, v) :: rest, key => if k = key then some v else dlookup rest key

/-- The module-level mutable state of the script. -/
structure St where
  node_count : Nat
  warnings : Nat
  errors : Nat
  node_id : Option (List Char)
  node_name : Option (List Char)
  node_start_line : Option (List Char)
  nodename_to_line : List (List Char × Option (List Char))
  ipaddr_to_nodename : List (List Char × Option (List Char))
  nodeid_to_line : List (List Char × Option (List Char))
  output : List (List Char)
deriving DecidableEq

/-- Initial state: zero counters, unset record variables, empty dicts. -/
def initSt : St :=
  ⟨0, 0, 0, none, none, none, [], [], [], []⟩

/-- print('New node starting at line '+node_start_line). -/
def newNodeMsg (n : Nat) : List Char :=
  "New node starting at line ".toList ++ natChars n

/-- print('  ends at line '+str(line_number)). -/
def endsMsg (n : Nat) : List Char :=
  "  ends at line ".toList ++ natChars n

/-- print('  id '+node_id). -/
def idMsg (i : List Char) : List Char :=
  "  id ".toList ++ i

/-- print('  name '+node_name). -/
def nameMsg (nm : List Char) : List Char :=
  "  name ".toList ++ nm

/-- print('  address '+address). -/
def addrMsg (a : List Char) : List Char :=
  "  address ".toList ++ a

/-- The missing-id warning text. -/
def missingIdMsg (nm sl : List Char) : List Char :=
  "WARNING: Node ".toList ++ nm ++ " at line ".toList ++ sl
    ++ " does not have an id".toList

/-- The duplicate-id error text. -/
def dupIdMsg (pl sl i : List Char) : List Char :=
  "ERROR: The nodes at line ".toList ++ pl ++ " and ".toList ++ sl
    ++ " both have the id ".toList ++ i

/-- The duplicate-name error text. -/
def dupNameMsg (pl sl nm : List Char) : List Char :=
  "ERROR: The nodes at line ".toList ++ pl ++ " and ".toList ++ sl
    ++ " both have the name ".toList ++ nm

/-- The shared-address warning text. -/
def dupAddrMsg (nm sl oth ol a : List Char) : List Char :=
  "WARNING: Node ".toList ++ nm ++ " (line ".toList ++ sl
    ++ ") and node ".toList ++ oth ++ " (line ".toList ++ ol
    ++ ") both have ip address ".toList ++ a

/-- Handler for a `begin node` line (source lines 146-152): bump node_count,
set the start line, optionally print the verbose message. -/
def beginNodeStep (v : Bool) (n : Nat) (st : St) : St :=
  { st with
      node_count := st.node_count + 1,
      node_start_line := some (natChars n),
      output := st.output ++ (if v then [newNodeMsg n] else []) }

/-- Handler for an `end node` line (source lines 154-167).  If the id dict
is non-empty and the current record has no id, the warning is printed; the
concatenation raises TypeError when node_name or node_start_line is unset.
Afterwards the verbose message is printed and id / start line are reset. -/
def endNodeStep (v : Bool) (n : Nat) (st : St) : Except PyErr St :=
  if 0 < st.nodeid_to_line.length ∧ st.node_id = none then
    match st.node_name, st.node_start_line with
    | some nm, some sl =>
      .ok { st with
              warnings := st.warnings + 1,
              node_start_line := none,
              node_id := none,
              output := (st.output ++ [missingIdMsg nm sl])
                          ++ (if v then [endsMsg n] else []) }
    | _, _ => .error .typeError
  else
    .ok { st with
            node_start_line := none,
            node_id := none,
            output := st.output ++ (if v then [endsMsg n] else []) }

/-- Handler for an `id <i>` line (source lines 169-183). -/
def idStep (v : Bool) (i : List Char) (st : St) : Except PyErr St :=
  match dlookup st.nodeid_to_line i with
  | some prev =>
    match prev, st.node_start_line with
    | some pl, some sl =>
      .ok { st with
              node_id := some i,
              errors := st.errors + 1,
              output := (st.output ++ (if v then [idMsg i] else []))
                          ++ [dupIdMsg pl sl i] }
    | _, _ => .error .typeError
  | none =>
    .ok { st with
            node_id := some i,
            nodeid_to_line := (i, st.node_start_line) :: st.nodeid_to_line,
            output := st.output ++ (if v then [idMsg i] else []) }

/-- Handler for a `name <nm>` line (source lines 185-199). -/
def nameStep (v : Bool) (nm : List Char) (st : St) : Except PyErr St :=
  match dlookup st.nodename_to_line nm with
  | some prev =>
    match prev, st.node_start_line with
    | some pl, some sl =>
      .ok { st with
              node_name := some nm,
              errors := st.errors + 1,
              output := (st.output ++ (if v then [nameMsg nm] else []))
                          ++ [dupNameMsg pl sl nm] }
    | _, _ => .error .typeError
  | none =>
    .ok { st with
            node_name := some nm,
            nodename_to_line := (nm, st.node_start_line) :: st.nodename_to_line,
            output := st.output ++ (if v then [nameMsg nm] else []) }

/-- Handler for an `address <a>` line (source lines 201-217).  On a
collision the prior claimant name is looked up in nodename_to_line, which
raises KeyError when that stored name is None; printing the warning raises
TypeError when any of the concatenated values is None. -/
def addressStep (v : Bool) (a : List Char) (st : St) : Except PyErr St :=
  match dlookup st.ipaddr_to_nodename a with
  | some othOpt =>
    match othOpt with
    | none => .error .keyError
    | some oth =>
      match dlookup st.nodename_to_line oth with
      | none => .error .keyError
      | some othLineOpt =>
        match st.node_name, st.node_start_line, othLineOpt with
        | some nm, some sl, some ol =>
          .ok { st with
                  warnings := st.warnings + 1,
                  output := (st.output ++ (if v then [addrMsg a] else []))
                              ++ [dupAddrMsg nm sl oth ol a] }
        | _, _, _ => .error .typeError
  | none =>
    .ok { st with
            ipaddr_to_nodename := (a, st.node_name) :: st.ipaddr_to_nodename,
            output := st.output ++ (if v then [addrMsg a] else []) }

/-- The if-elif chain of source lines 154-217 (record end and the three
field keywords); anything else falls through and the line is ignored. -/
def stepDispatch (v : Bool) (n : Nat) (e0 e2 : List Char) (st : St) : Except PyErr St :=
  if e0 = "end".toList ∧ e2 = "node".toList then endNodeStep v n st
  else if e0 = "id".toList then idStep v e2 st
  else if e0 = "name".toList then nameStep v e2 st
  else if e0 = "address".toList then addressStep v e2 st
  else .ok st

/-- Process a partitioned line, mirroring source lines 142-217: skip empty
lines; the begin check (source line 146) is a separate if, so its update
is visible to the end/id/name/address chain that follows. -/
def stepParts (v : Bool) (n : Nat) (e0 e2 : List Char) (st : St) : Except PyErr St :=
  if e0.length = 0 then .ok st
  else
    stepDispatch v n e0 e2
      (if e0 = "begin".toList ∧ e2 = "node".toList then beginNodeStep v n st else st)

/-- Process one raw line: strip, split at the first space, dispatch. -/
def step (v : Bool) (n : Nat) (raw : List Char) (st : St) : Except PyErr St :=
  stepParts v n (pyPart (pyStrip raw)).1 (pyPart (pyStrip raw)).2 st

/-- The scanning loop from state st, numbering lines from n. -/
def runFrom (v : Bool) (n : Nat) (st : St) : List (List Char) → Except PyErr St
  | [] => .ok st
  | l :: rest =>
    match step v n l st with
    | .ok st' => runFrom v (n + 1) st' rest
    | .error e => .error e

/-- Scan a whole file: line numbers start at 1, state starts empty. -/
def runLines (v : Bool) (lines : List (List Char)) : Except PyErr St :=
  runFrom v 1 initSt lines

/-- print('Checking node file '+node_filename), source line 90. -/
def checkingMsg (fname : List Char) : List Char :=
  "Checking node file ".toList ++ fname

/-- print('    Cannot access file '+node_filename), source line 229. -/
def fatalMsg (fname : List Char) : List Char :=
  "    Cannot access file ".toList ++ fname

/-- The end-of-file summary, source line 220 (note the missing separator
between the error count and the warning text, kept verbatim). -/
def summaryMsg (st : St) : List Char :=
  "Finished. ".toList ++ natChars st.node_count ++ " nodes, ".toList
    ++ natChars st.errors ++ " errors".toList
    ++ natChars st.warnings ++ " warnings".toList

/-- How the input source behaves when the script opens and iterates it
(source line 134).  found lines: open succeeds and iteration yields the
whole file.  notFound: open raises FileNotFoundError.  openFails e: open
raises a different exception (PermissionError, IsADirectoryError, ...).
readFails pre e: open succeeds, iteration yields the lines pre and then
raises (for example UnicodeDecodeError on bad UTF-8). -/
inductive NodeFile where
  | found (lines : List (List Char))
  | notFound
  | openFails (e : OsErr)
  | readFails (pre : List (List Char)) (e : OsErr)

/-- The whole program on an input source.  Only FileNotFoundError is caught
(source lines 227-230): that path prints the fatal message and exits 2.
A found file is scanned to end of file, the summary printed, and the exit
code is 1 exactly when the error counter is positive (source lines
219-225).  Any other open failure propagates uncaught; a mid-read failure
first runs the loop over the lines read so far (their diagnostics are
printed, and a loop-body exception wins if one is raised), then propagates
uncaught.  The ok pair is (exit code, console output). -/
def checkNodeFile (v : Bool) (fname : List Char) (file : NodeFile) :
    Except Uncaught (Nat × List (List Char)) :=
  match file with
  | .notFound => .ok (2, [checkingMsg fname, fatalMsg fname])
  | .openFails e => .error (.io e)
  | .found lines =>
    match runLines v lines with
    | .ok st =>
      .ok (if 0 < st.errors then 1 else 0,
           checkingMsg fname :: st.output ++ [summaryMsg st])
    | .error pe => .error (.py pe)
  | .readFails pre e =>
    match runLines v pre with
    | .ok _ => .error (.io e)
    | .error pe => .error (.py pe)

/-- Boolean check that a list starts with the given first argument. -/
def startsWith : List Char → List Char → Bool
  | [], _ => true
  | _ :: _, [] => false
  | p :: ps, c :: cs => (p == c) && startsWith ps cs

/-- A console line is a diagnostic when it is a WARNING or an ERROR line. -/
def isDiag (l : List Char) : Bool :=
  startsWith "WARNING:".toList l || startsWith "ERROR:".toList l

/-- The diagnostic lines of a console output. -/
def diagLines (o : List (List Char)) : List (List Char) :=
  o.filter isDiag

/-- Everything observable that the verbose flag must not change: all
counters, the per-record variables, the three dicts, and the diagnostic
lines of the output. -/
def obs (st : St) :
    Nat × Nat × Nat × Option (List Char) × Option (List Char) × Option (List Char)
      × List (List Char × Option (List Char)) × List (List Char × Option (List Char))
      × List (List Char × Option (List Char)) × List (List Char) :=
  (st.node_count, st.warnings, st.errors, st.node_id, st.node_name, st.node_start_line,
   st.nodename_to_line, st.ipaddr_to_nodename, st.nodeid_to_line, diagLines st.output)

/-- A line matches one of the recognized patterns of the dispatch chain. -/
def recognized (l : List Char) : Bool :=
  ((pyPart (pyStrip l)).1 = "begin".toList && (pyPart (pyStrip l)).2 = "node".toList)
    || ((pyPart (pyStrip l)).1 = "end".toList && (pyPart (pyStrip l)).2 = "node".toList)
    || (pyPart (pyStrip l)).1 = "id".toList
    || (pyPart (pyStrip l)).1 = "name".toList
    || (pyPart (pyStrip l)).1 = "address".toList

/-- One dict extends another without disturbing any stored binding. -/
def dpres (d d' : List (List Char × Option (List Char))) : Prop :=
  ∀ k val, dlookup d k = some val → dlookup d' k = some val

/-- A file whose first record has no id and ends before the first id line:
two well-formed records, only the second carries an id. -/
def idAfterFile : List (List Char) :=
  ["begin node".toList, "name a".toList, "end node".toList,
   "begin node".toList, "name b".toList, "id 7".toList, "end node".toList]

/-- A file whose second record has neither id nor name, while the first
record established the id dict: ending the second record prints the
missing-id warning with an unset node_name. -/
def namelessFile : List (List Char) :=
  ["begin node".toList, "id 5".toList, "end node".toList,
   "begin node".toList, "end node".toList]

/-- Lines whose first token is begin but which are not exactly
begin-space-node: extra trailing token, and a tab separator. -/
def looseBeginFile : List (List Char) :=
  ["begin node extra".toList, "begin\tnode".toList]

/-- A lone begin-node line: a record start with no matching record end. -/
def unpairedBeginFile : List (List Char) :=
  ["begin node".toList]

/-- A state in the middle of a run: inside the second record (named a,
started at line 4), after a first record with id 5 starting at line 1. -/
def midSt : St :=
  { initSt with
      node_name := some "a".toList,
      node_start_line := some "4".toList,
      nodeid_to_line := [("5".toList, some "1".toList)] }

/-- A state inside a record named elk started at line 7, after a record
named moose (line 3) already claimed address 10.0.0.1. -/
def addrSt : St :=
  { initSt with
      node_name := some "elk".toList,
      node_start_line := some "7".toList,
      nodename_to_line := [("moose".toList, some "3".toList)],
      ipaddr_to_nodename := [("10.0.0.1".toList, some "moose".toList)] }

/-- A state inside a record that carries id 9 and name x since line 2. -/
def endSt : St :=
  { initSt with
      node_id := some "9".toList,
      node_name := some "x".toList,
      node_start_line := some "2".toList,
      nodeid_to_line := [("9".toList, some "2".toList)] }

/-- The state endSt after its record-end line: only id and start line are
cleared. -/
def endSt' : St :=
  { endSt with node_id := none, node_start_line := none }

/-! ### Dispatch lemmas: how stepParts reduces on each recognized keyword -/

lemma stepParts_begin_node (v : Bool) (n : Nat) (st : St) :
    stepParts v n ("begin".toList) ("node".toList) st = .ok (beginNodeStep v n st) := rfl

lemma stepParts_end_node (v : Bool) (n : Nat) (st : St) :
    stepParts v n ("end".toList) ("node".toList) st = endNodeStep v n st := rfl

lemma stepParts_id (v : Bool) (n : Nat) (i : List Char) (st : St) :
    stepParts v n ("id".toList) i st = idStep v i st := rfl

lemma stepParts_name (v : Bool) (n : Nat) (nm : List Char) (st : St) :
    stepParts v n ("name".toList) nm st = nameStep v nm st := rfl

lemma stepParts_address (v : Bool) (n : Nat) (a : List Char) (st : St) :
    stepParts v n ("address".toList) a st = addressStep v a st := rfl

/-! ### Dict preservation -/

lemma dpres_refl (d : List (List Char × Option (List Char))) : dpres d d :=
  fun _ _ hv => hv

lemma dpres_trans {d1 d2 d3 : List (List Char × Option (List Char))}
    (h1 : dpres d1 d2) (h2 : dpres d2 d3) : dpres d1 d3 :=
  fun k val hv => h2 k val (h1 k val hv)

lemma dlookup_cons_keep {d : List (List Char × Option (List Char))} {k k₂ : List Char}
    {v₂ val : Option (List Char)} (hk : dlookup d k₂ = none)
    (h : dlookup d k = some val) : dlookup ((k₂, v₂) :: d) k = some val := by
  unfold dlookup
  by_cases hkk : k₂ = k
  · subst hkk; rw [hk] at h; cases h
  · rw [if_neg hkk]; exact h

/-! ### Frame lemmas for the individual handlers -/

lemma endNodeStep_frame {v : Bool} {n : Nat} {st st' : St}
    (h : endNodeStep v n st = .ok st') :
    st'.node_id = none ∧ st'.node_start_line = none ∧ st'.node_name = st.node_name ∧
    st'.node_count = st.node_count ∧ st'.errors = st.errors ∧
    st'.nodename_to_line = st.nodename_to_line ∧
    st'.ipaddr_to_nodename = st.ipaddr_to_nodename ∧
    st'.nodeid_to_line = st.nodeid_to_line := by
  unfold endNodeStep at h
  split at h
  · split at h
    all_goals try exact Except.noConfusion h
    all_goals (injection h with h; subst h; exact ⟨rfl, rfl, rfl, rfl, rfl, rfl, rfl, rfl⟩)
  · injection h with h; subst h; exact ⟨rfl, rfl, rfl, rfl, rfl, rfl, rfl, rfl⟩

lemma idStep_ok {v : Bool} {i : List Char} {st st' : St} (h : idStep v i st = .ok st') :
    st'.node_count = st.node_count ∧
    dpres st.nodeid_to_line st'.nodeid_to_line ∧
    st'.nodename_to_line = st.nodename_to_line ∧
    st'.ipaddr_to_nodename = st.ipaddr_to_nodename := by
  unfold idStep at h
  split at h
  next prev heq =>
    split at h
    all_goals try exact Except.noConfusion h
    injection h with h; subst h
    exact ⟨rfl, fun k val hv => hv, rfl, rfl⟩
  next heq =>
    injection h with h; subst h
    exact ⟨rfl, fun k val hv => dlookup_cons_keep heq hv, rfl, rfl⟩

lemma nameStep_ok {v : Bool} {nm : List Char} {st st' : St} (h : nameStep v nm st = .ok st') :
    st'.node_count = st.node_count ∧
    dpres st.nodename_to_line st'.nodename_to_line ∧
    st'.nodeid_to_line = st.nodeid_to_line ∧
    st'.ipaddr_to_nodename = st.ipaddr_to_nodename := by
  unfold nameStep at h
  split at h
  next prev heq =>
    split at h
    all_goals try exact Except.noConfusion h
    injection h with h; subst h
    exact ⟨rfl, fun k val hv => hv, rfl, rfl⟩
  next heq =>
    injection h with h; subst h
    exact ⟨rfl, fun k val hv => dlookup_cons_keep heq hv, rfl, rfl⟩

lemma addressStep_ok {v : Bool} {a : List Char} {st st' : St}
    (h : addressStep v a st = .ok st') :
    st'.node_count = st.node_count ∧
    dpres st.ipaddr_to_nodename st'.ipaddr_to_nodename ∧
    st'.nodeid_to_line = st.nodeid_to_line ∧
    st'.nodename_to_line = st.nodename_to_line := by
  unfold addressStep at h
  split at h
  next othOpt heq =>
    split at h
    · exact Except.noConfusion h
    next oth =>
      split at h
      · exact Except.noConfusion h
      next othLineOpt heq2 =>
        split at h
        all_goals try exact Except.noConfusion h
        injection h with h; subst h
        exact ⟨rfl, fun k val hv => hv, rfl, rfl⟩
  next heq =>
    injection h with h; subst h
    exact ⟨rfl, fun k val hv => dlookup_cons_keep heq hv, rfl, rfl⟩

/-! ### Frame lemmas lifted through the dispatch, one step, and the run -/

lemma stepDispatch_frame {v : Bool} {n : Nat} {e0 e2 : List Char} {st st' : St}
    (h : stepDispatch v n e0 e2 st = .ok st') :
    dpres st.nodeid_to_line st'.nodeid_to_line ∧
    dpres st.nodename_to_line st'.nodename_to_line ∧
    dpres st.ipaddr_to_nodename st'.ipaddr_to_nodename ∧
    st'.node_count = st.node_count := by
  unfold stepDispatch at h
  split at h
  · have hf := endNodeStep_frame h
    exact ⟨hf.2.2.2.2.2.2.2 ▸ dpres_refl _, hf.2.2.2.2.2.1 ▸ dpres_refl _,
           hf.2.2.2.2.2.2.1 ▸ dpres_refl _, hf.2.2.2.1⟩
  · split at h
    · have hf := idStep_ok h
      exact ⟨hf.2.1, hf.2.2.1 ▸ dpres_refl _, hf.2.2.2 ▸ dpres_refl _, hf.1⟩
    · split at h
      · have hf := nameStep_ok h
        exact ⟨hf.2.2.1 ▸ dpres_refl _, hf.2.1, hf.2.2.2 ▸ dpres_refl _, hf.1⟩
      · split at h
        · have hf := addressStep_ok h
          exact ⟨hf.2.2.1 ▸ dpres_refl _, hf.2.2.2 ▸ dpres_refl _, hf.2.1, hf.1⟩
        · injection h with h; subst h
          exact ⟨dpres_refl _, dpres_refl _, dpres_refl _, rfl⟩

lemma stepParts_frame {v : Bool} {n : Nat} {e0 e2 : List Char} {st st' : St}
    (h : stepParts v n e0 e2 st = .ok st') :
    dpres st.nodeid_to_line st'.nodeid_to_line ∧
    dpres st.nodename_to_line st'.nodename_to_line ∧
    dpres st.ipaddr_to_nodename st'.ipaddr_to_nodename ∧
    (¬(e0 = "begin".toList ∧ e2 = "node".toList) → st'.node_count = st.node_count) := by
  unfold stepParts at h
  split at h
  · injection h with h; subst h
    exact ⟨dpres_refl _, dpres_refl _, dpres_refl _, fun _ => rfl⟩
  · by_cases hb : e0 = "begin".toList ∧ e2 = "node".toList
    · rw [if_pos hb] at h
      have hd := stepDispatch_frame h
      exact ⟨hd.1, hd.2.1, hd.2.2.1, fun hnb => absurd hb hnb⟩
    · rw [if_neg hb] at h
      have hd := stepDispatch_frame h
      exact ⟨hd.1, hd.2.1, hd.2.2.1, fun _ => hd.2.2.2⟩

lemma step_frame {v : Bool} {n : Nat} {raw : List Char} {st st' : St}
    (h : step v n raw st = .ok st') :
    dpres st.nodeid_to_line st'.nodeid_to_line ∧
    dpres st.nodename_to_line st'.nodename_to_line ∧
    dpres st.ipaddr_to_nodename st'.ipaddr_to_nodename := by
  have hf := stepParts_frame (h : stepParts v n _ _ st = .ok st')
  exact ⟨hf.1, hf.2.1, hf.2.2.1⟩

lemma runFrom_pres {v : Bool} :
    ∀ (lines : List (List Char)) (n : Nat) (st st' : St),
      runFrom v n st lines = .ok st' →
      dpres st.nodeid_to_line st'.nodeid_to_line ∧
      dpres st.nodename_to_line st'.nodename_to_line ∧
      dpres st.ipaddr_to_nodename st'.ipaddr_to_nodename := by
  intro lines
  induction lines with
  | nil =>
    intro n st st' h
    injection h with h; subst h
    exact ⟨dpres_refl _, dpres_refl _, dpres_refl _⟩
  | cons l rest ih =>
    intro n st st' h
    unfold runFrom at h
    cases hs : step v n l st with
    | ok st₁ =>
      rw [hs] at h
      have h1 := step_frame hs
      have h2 := ih (n + 1) st₁ st' h
      exact ⟨dpres_trans h1.1 h2.1, dpres_trans h1.2.1 h2.2.1,
             dpres_trans h1.2.2 h2.2.2⟩
    | error e =>
      rw [hs] at h
      exact Except.noConfusion h

/-! ### What pyPart tells about its input -/

lemma pyPart_shape : ∀ (s p q : List Char), pyPart s = (p, q) →
    s = p ++ ' ' :: q ∨ (s = p ∧ q = []) := by
  intro s
  induction s with
  | nil =>
    intro p q h
    injection h with h1 h2
    subst h1; subst h2
    exact Or.inr ⟨rfl, rfl⟩
  | cons c cs ih =>
    intro p q h
    unfold pyPart at h
    by_cases hc : c = ' '
    · rw [if_pos hc] at h
      injection h with h1 h2
      subst h1; subst h2
      subst hc
      exact Or.inl rfl
    · rw [if_neg hc] at h
      injection h with h1 h2
      subst h1; subst h2
      rcases ih (pyPart cs).1 (pyPart cs).2 rfl with hcase | hcase
      · exact Or.inl (by rw [List.cons_append, ← hcase])
      · exact Or.inr ⟨by rw [← hcase.1], hcase.2⟩

/-! ### Diagnostic classification of every message the script prints -/

lemma isDiag_newNodeMsg (n : Nat) : isDiag (newNodeMsg n) = false := rfl

lemma isDiag_endsMsg (n : Nat) : isDiag (endsMsg n) = false := rfl

lemma isDiag_idMsg (i : List Char) : isDiag (idMsg i) = false := rfl

lemma isDiag_nameMsg (i : List Char) : isDiag (nameMsg i) = false := rfl

lemma isDiag_addrMsg (i : List Char) : isDiag (addrMsg i) = false := rfl

lemma isDiag_missingIdMsg (a b : List Char) : isDiag (missingIdMsg a b) = true := rfl

lemma isDiag_dupIdMsg (a b c : List Char) : isDiag (dupIdMsg a b c) = true := rfl

lemma isDiag_dupNameMsg (a b c : List Char) : isDiag (dupNameMsg a b c) = true := rfl

lemma isDiag_dupAddrMsg (a b c d e : List Char) : isDiag (dupAddrMsg a b c d e) = true := rfl

/-! ### Reduction of the dispatch chain on each keyword -/

lemma stepDispatch_begin (v : Bool) (n : Nat) (st : St) :
    stepDispatch v n ("begin".toList) ("node".toList) st = .ok st := rfl

lemma stepDispatch_end (v : Bool) (n : Nat) (st : St) :
    stepDispatch v n ("end".toList) ("node".toList) st = endNodeStep v n st := rfl

lemma stepDispatch_id (v : Bool) (n : Nat) (i : List Char) (st : St) :
    stepDispatch v n ("id".toList) i st = idStep v i st := rfl

lemma stepDispatch_name (v : Bool) (n : Nat) (nm : List Char) (st : St) :
    stepDispatch v n ("name".toList) nm st = nameStep v nm st := rfl

lemma stepDispatch_address (v : Bool) (n : Nat) (a : List Char) (st : St) :
    stepDispatch v n ("address".toList) a st = addressStep v a st := rfl

lemma stepDispatch_other (v : Bool) (n : Nat) (e0 e2 : List Char) (st : St)
    (h1 : ¬(e0 = "end".toList ∧ e2 = "node".toList)) (h2 : e0 ≠ "id".toList)
    (h3 : e0 ≠ "name".toList) (h4 : e0 ≠ "address".toList) :
    stepDispatch v n e0 e2 st = .ok st := by
  unfold stepDispatch
  rw [if_neg h1, if_neg h2, if_neg h3, if_neg h4]

/-! ### Verbose-mode simulation: each handler gives obs-equal results on
obs-equal states, for any two settings of the verbose flag -/

lemma endNodeStep_sim (v₁ v₂ : Bool) (n nc w e : Nat) (id nm sl : Option (List Char))
    (r1 r2 r3 : List (List Char × Option (List Char))) (o₁ o₂ : List (List Char))
    (h : diagLines o₁ = diagLines o₂) :
    (endNodeStep v₁ n ⟨nc, w, e, id, nm, sl, r1, r2, r3, o₁⟩).map obs
      = (endNodeStep v₂ n ⟨nc, w, e, id, nm, sl, r1, r2, r3, o₂⟩).map obs := by
  simp only [diagLines] at h
  unfold endNodeStep
  dsimp only
  by_cases hc : 0 < r3.length ∧ id = none
  · rw [if_pos hc, if_pos hc]
    cases nm <;> cases sl <;> cases v₁ <;> cases v₂ <;>
      simp [obs, Except.map, diagLines, List.filter_append,
            isDiag_endsMsg, isDiag_missingIdMsg, h]
  · rw [if_neg hc, if_neg hc]
    cases v₁ <;> cases v₂ <;>
      simp [obs, Except.map, diagLines, List.filter_append, isDiag_endsMsg, h]

lemma idStep_sim (v₁ v₂ : Bool) (i : List Char) (nc w e : Nat)
    (id nm sl : Option (List Char))
    (r1 r2 r3 : List (List Char × Option (List Char))) (o₁ o₂ : List (List Char))
    (h : diagLines o₁ = diagLines o₂) :
    (idStep v₁ i ⟨nc, w, e, id, nm, sl, r1, r2, r3, o₁⟩).map obs
      = (idStep v₂ i ⟨nc, w, e, id, nm, sl, r1, r2, r3, o₂⟩).map obs := by
  simp only [diagLines] at h
  unfold idStep
  dsimp only
  cases hdl : dlookup r3 i with
  | some prev =>
    cases prev <;> cases sl <;> cases v₁ <;> cases v₂ <;>
      simp [obs, Except.map, diagLines, List.filter_append,
            isDiag_idMsg, isDiag_dupIdMsg, h]
  | none =>
    cases v₁ <;> cases v₂ <;>
      simp [obs, Except.map, diagLines, List.filter_append, isDiag_idMsg, h]

lemma nameStep_sim (v₁ v₂ : Bool) (i : List Char) (nc w e : Nat)
    (id nm sl : Option (List Char))
    (r1 r2 r3 : List (List Char × Option (List Char))) (o₁ o₂ : List (List Char))
    (h : diagLines o₁ = diagLines o₂) :
    (nameStep v₁ i ⟨nc, w, e, id, nm, sl, r1, r2, r3, o₁⟩).map obs
      = (nameStep v₂ i ⟨nc, w, e, id, nm, sl, r1, r2, r3, o₂⟩).map obs := by
  simp only [diagLines] at h
  unfold nameStep
  dsimp only
  cases hdl : dlookup r1 i with
  | some prev =>
    cases prev <;> cases sl <;> cases v₁ <;> cases v₂ <;>
      simp [obs, Except.map, diagLines, List.filter_append,
            isDiag_nameMsg, isDiag_dupNameMsg, h]
  | none =>
    cases v₁ <;> cases v₂ <;>
      simp [obs, Except.map, diagLines, List.filter_append, isDiag_nameMsg, h]

lemma addressStep_sim (v₁ v₂ : Bool) (a : List Char) (nc w e : Nat)
    (id nm sl : Option (List Char))
    (r1 r2 r3 : List (List Char × Option (List Char))) (o₁ o₂ : List (List Char))
    (h : diagLines o₁ = diagLines o₂) :
    (addressStep v₁ a ⟨nc, w, e, id, nm, sl, r1, r2, r3, o₁⟩).map obs
      = (addressStep v₂ a ⟨nc, w, e, id, nm, sl, r1, r2, r3, o₂⟩).map obs := by
  simp only [diagLines] at h
  unfold addressStep
  dsimp only
  cases hdl : dlookup r2 a with
  | some othOpt =>
    cases othOpt with
    | none => simp [Except.map]
    | some oth =>
      cases hdl2 : dlookup r1 oth with
      | none => simp [hdl2, Except.map]
      | some othLineOpt =>
        cases othLineOpt <;> cases nm <;> cases sl <;> cases v₁ <;> cases v₂ <;>
          simp [hdl2, obs, Except.map, diagLines, List.filter_append,
                isDiag_addrMsg, isDiag_dupAddrMsg, h]
  | none =>
    cases v₁ <;> cases v₂ <;>
      simp [obs, Except.map, diagLines, List.filter_append, isDiag_addrMsg, h]

lemma stepParts_sim (v₁ v₂ : Bool) (n : Nat) (e0 e2 : List Char) (nc w e : Nat)
    (id nm sl : Option (List Char))
    (r1 r2 r3 : List (List Char × Option (List Char))) (o₁ o₂ : List (List Char))
    (h : diagLines o₁ = diagLines o₂) :
    (stepParts v₁ n e0 e2 ⟨nc, w, e, id, nm, sl, r1, r2, r3, o₁⟩).map obs
      = (stepParts v₂ n e0 e2 ⟨nc, w, e, id, nm, sl, r1, r2, r3, o₂⟩).map obs := by
  have h' : List.filter isDiag o₁ = List.filter isDiag o₂ := h
  unfold stepParts
  by_cases h0 : e0.length = 0
  · rw [if_pos h0, if_pos h0]
    simp [obs, Except.map, h]
  · rw [if_neg h0, if_neg h0]
    by_cases hb : e0 = "begin".toList ∧ e2 = "node".toList
    · rw [if_pos hb, if_pos hb]
      obtain ⟨hb0, hb2⟩ := hb
      subst hb0; subst hb2
      rw [stepDispatch_begin, stepDispatch_begin]
      cases v₁ <;> cases v₂ <;>
        simp [beginNodeStep, obs, Except.map, diagLines, List.filter_append,
              isDiag_newNodeMsg, h']
    · rw [if_neg hb, if_neg hb]
      by_cases he : e0 = "end".toList ∧ e2 = "node".toList
      · obtain ⟨he0, he2⟩ := he
        subst he0; subst he2
        rw [stepDispatch_end, stepDispatch_end]
        exact endNodeStep_sim v₁ v₂ n nc w e id nm sl r1 r2 r3 o₁ o₂ h
      · by_cases hi : e0 = "id".toList
        · subst hi
          rw [stepDispatch_id, stepDispatch_id]
          exact idStep_sim v₁ v₂ e2 nc w e id nm sl r1 r2 r3 o₁ o₂ h
        · by_cases hn : e0 = "name".toList
          · subst hn
            rw [stepDispatch_name, stepDispatch_name]
            exact nameStep_sim v₁ v₂ e2 nc w e id nm sl r1 r2 r3 o₁ o₂ h
          · by_cases ha : e0 = "address".toList
            · subst ha
              rw [stepDispatch_address, stepDispatch_address]
              exact addressStep_sim v₁ v₂ e2 nc w e id nm sl r1 r2 r3 o₁ o₂ h
            · rw [stepDispatch_other v₁ n e0 e2 _ he hi hn ha,
                  stepDispatch_other v₂ n e0 e2 _ he hi hn ha]
              simp [obs, Except.map, h]

lemma step_sim (v₁ v₂ : Bool) (n : Nat) (raw : List Char) (nc w e : Nat)
    (id nm sl : Option (List Char))
    (r1 r2 r3 : List (List Char × Option (List Char))) (o₁ o₂ : List (List Char))
    (h : diagLines o₁ = diagLines o₂) :
    (step v₁ n raw ⟨nc, w, e, id, nm, sl, r1, r2, r3, o₁⟩).map obs
      = (step v₂ n raw ⟨nc, w, e, id, nm, sl, r1, r2, r3, o₂⟩).map obs := by
  unfold step
  exact stepParts_sim v₁ v₂ n _ _ nc w e id nm sl r1 r2 r3 o₁ o₂ h

lemma runFrom_sim (v₁ v₂ : Bool) :
    ∀ (lines : List (List Char)) (n : Nat) (st₁ st₂ : St),
      obs st₁ = obs st₂ →
      (runFrom v₁ n st₁ lines).map obs = (runFrom v₂ n st₂ lines).map obs := by
  intro lines
  induction lines with
  | nil =>
    intro n st₁ st₂ hobs
    simp [runFrom, Except.map, hobs]
  | cons l rest ih =>
    intro n st₁ st₂ hobs
    have hstep : (step v₁ n l st₁).map obs = (step v₂ n l st₂).map obs := by
      obtain ⟨nc, w, e, id, nm, sl, r1, r2, r3, o₁⟩ := st₁
      obtain ⟨nc', w', e', id', nm', sl', r1', r2', r3', o₂⟩ := st₂
      simp only [obs, Prod.mk.injEq] at hobs
      obtain ⟨h1, h2, h3, h4, h5, h6, h7, h8, h9, h10⟩ := hobs
      subst h1; subst h2; subst h3; subst h4; subst h5
      subst h6; subst h7; subst h8; subst h9
      exact step_sim v₁ v₂ n l nc w e id nm sl r1 r2 r3 o₁ o₂ h10
    unfold runFrom
    cases hs₁ : step v₁ n l st₁ with
    | ok s₁ =>
      cases hs₂ : step v₂ n l st₂ with
      | ok s₂ =>
        rw [hs₁, hs₂] at hstep
        simp only [Except.map] at hstep
        injection hstep with hstep
        simp only [hs₁, hs₂]
        exact ih (n + 1) s₁ s₂ hstep
      | error e2 =>
        rw [hs₁, hs₂] at hstep
        simp [Except.map] at hstep
    | error e1 =>
      cases hs₂ : step v₂ n l st₂ with
      | ok s₂ =>
        rw [hs₁, hs₂] at hstep
        simp [Except.map] at hstep
      | error e2 =>
        rw [hs₁, hs₂] at hstep
        simp only [Except.map] at hstep
        injection hstep with hstep
        simp [hs₁, hs₂, Except.map, hstep]

/-! ### Unrecognized lines leave the state untouched -/

lemma step_unrecognized (v : Bool) (n : Nat) (l : List Char) (st : St)
    (h : recognized l = false) : step v n l st = .ok st := by
  unfold recognized at h
  simp only [Bool.or_eq_false_iff, Bool.and_eq_false_iff, decide_eq_false_iff_not] at h
  obtain ⟨⟨⟨⟨hb', he'⟩, hi⟩, hn⟩, ha⟩ := h
  have hb : ¬((pyPart (pyStrip l)).1 = "begin".toList
               ∧ (pyPart (pyStrip l)).2 = "node".toList) := by
    intro hx
    rcases hb' with hb' | hb'
    · exact hb' hx.1
    · exact hb' hx.2
  have he : ¬((pyPart (pyStrip l)).1 = "end".toList
               ∧ (pyPart (pyStrip l)).2 = "node".toList) := by
    intro hx
    rcases he' with he' | he'
    · exact he' hx.1
    · exact he' hx.2
  unfold step stepParts
  by_cases h0 : (pyPart (pyStrip l)).1.length = 0
  · rw [if_pos h0]
  · rw [if_neg h0, if_neg hb]
    exact stepDispatch_other v n _ _ st he hi hn ha

lemma runFrom_unrecognized (v : Bool) :
    ∀ (lines : List (List Char)) (n : Nat) (st : St),
      (∀ l ∈ lines, recognized l = false) → runFrom v n st lines = .ok st := by
  intro lines
  induction lines with
  | nil => intro n st _; rfl
  | cons l rest ih =>
    intro n st h
    unfold runFrom
    simp only [step_unrecognized v n l st (h l (List.mem_cons_self l rest))]
    exact ih (n + 1) st (fun l' hl' => h l' (List.mem_cons_of_mem l hl'))

/-! ### Reduction of the program on each kind of input source -/

lemma checkNodeFile_found (v : Bool) (fname : List Char) (lines : List (List Char)) :
    checkNodeFile v fname (.found lines)
      = match runLines v lines with
        | .ok st =>
          .ok (if 0 < st.errors then 1 else 0,
               checkingMsg fname :: st.output ++ [summaryMsg st])
        | .error pe => .error (.py pe) := rfl

/-! ### The claims -/

/-- Claim C1 counterexample: idAfterFile contains an id-bearing record, and
its first record lacks an id, yet the run finishes with zero warnings and no
diagnostic lines at all — the first record ends while the id dict is still
empty, so its missing id is never reported. -/
theorem c1_counterexample :
    (runLines false idAfterFile).map (fun st => (st.warnings, diagLines st.output))
      = .ok (0, []) := rfl

/-- Claim C1 (amended): when a record-end line is processed in a state whose
id dict is already non-empty and whose current record captured no id,
exactly one missing-id warning is emitted there (warning counter up by one,
exactly one WARNING line appended); when the id dict is still empty or the
record has an id, no warning is emitted at the record-end line.  A record
lacking an id that ends before the first id line therefore goes
unreported. -/
theorem c1_missing_id_warning (v : Bool) (n : Nat) (raw : List Char) (st : St)
    (nm sl : List Char)
    (hline : pyPart (pyStrip raw) = ("end".toList, "node".toList))
    (hnm : st.node_name = some nm) (hsl : st.node_start_line = some sl) :
    (st.nodeid_to_line ≠ [] ∧ st.node_id = none →
       step v n raw st
         = .ok { st with
                   warnings := st.warnings + 1,
                   node_start_line := none,
                   node_id := none,
                   output := (st.output ++ [missingIdMsg nm sl])
                               ++ (if v then [endsMsg n] else []) })
    ∧ (st.nodeid_to_line = [] ∨ st.node_id ≠ none →
       step v n raw st
         = .ok { st with
                   node_start_line := none,
                   node_id := none,
                   output := st.output ++ (if v then [endsMsg n] else []) }) := by
  have hstep : step v n raw st = endNodeStep v n st := by
    unfold step
    rw [hline]
    exact stepParts_end_node v n st
  constructor
  · intro hc
    rw [hstep]
    unfold endNodeStep
    rw [if_pos ⟨List.length_pos.mpr hc.1, hc.2⟩, hnm, hsl]
  · intro hcase
    rw [hstep]
    unfold endNodeStep
    have hneg : ¬(0 < st.nodeid_to_line.length ∧ st.node_id = none) := by
      rcases hcase with hemp | hid
      · intro hx
        rw [hemp] at hx
        exact Nat.lt_irrefl 0 hx.1
      · intro hx
        exact hid hx.2
    rw [if_neg hneg]

/-- Claim C1 witness: ending the current id-less record of midSt (id dict
already non-empty) emits exactly the missing-id warning. -/
theorem c1_missing_id_warning_witness :
    step false 5 ("end node".toList) midSt
      = .ok { midSt with
                warnings := midSt.warnings + 1,
                node_start_line := none,
                node_id := none,
                output := (midSt.output ++ [missingIdMsg ("a".toList) ("4".toList)])
                            ++ (if false then [endsMsg 5] else []) } :=
  (c1_missing_id_warning false 5 ("end node".toList) midSt ("a".toList) ("4".toList)
      rfl rfl rfl).1 ⟨by decide, rfl⟩

/-- Claim C2 (code bug): scanning namelessFile raises TypeError at its last
line, where the missing-id warning is printed for a record whose name was
never set (Python str plus None), so the scan aborts before end-of-file
instead of degrading to a diagnostic. -/
theorem c2_nameless_record_crash :
    runLines false namelessFile = .error PyErr.typeError := rfl

/-- Claim C3: whenever the scan reaches end-of-file, the exit code is 1
exactly when the error counter is positive and 0 otherwise; the warning
counter never influences it. -/
theorem c3_outcome (v : Bool) (fname : List Char) (lines : List (List Char)) (st : St)
    (h : runLines v lines = .ok st) :
    checkNodeFile v fname (.found lines)
      = .ok (if 0 < st.errors then 1 else 0,
             checkingMsg fname :: st.output ++ [summaryMsg st])
    ∧ (0 < st.errors → (if 0 < st.errors then 1 else 0) = 1)
    ∧ (st.errors = 0 → (if 0 < st.errors then 1 else 0) = 0) := by
  refine ⟨?_, fun hp => if_pos hp, fun hz => by simp [hz]⟩
  rw [checkNodeFile_found, h]

/-- Claim C3 witness: the empty file reaches end-of-file with zero errors
and exit code 0. -/
theorem c3_outcome_witness :
    checkNodeFile false ("f".toList) (.found [])
      = .ok (if 0 < initSt.errors then 1 else 0,
             checkingMsg ("f".toList) :: initSt.output ++ [summaryMsg initSt])
    ∧ (initSt.errors = 0 → (if 0 < initSt.errors then 1 else 0) = 0) :=
  ⟨(c3_outcome false ("f".toList) [] initSt rfl).1,
   (c3_outcome false ("f".toList) [] initSt rfl).2.2⟩

/-- Claim C4 counterexample: a source whose open raises PermissionError
cannot be opened, yet the program does not exit 2 with the fatal message —
the exception is uncaught (only FileNotFoundError is handled), so the
interpreter aborts with a traceback and exit status 1. -/
theorem c4_counterexample :
    checkNodeFile false ("f".toList) (NodeFile.openFails OsErr.permissionError)
      = .error (Uncaught.io OsErr.permissionError) := rfl

/-- Claim C4 (amended): only a source whose open raises FileNotFoundError
is turned into exit code 2 with the distinct fatal message naming the file
and no diagnostic or summary line; any other open failure, and any failure
while reading, is uncaught, so the program aborts without the fatal message
and without a summary (in the mid-read case after the diagnostics of the
lines already read, or with the loop's own exception if one fires
first). -/
theorem c4_fatal (v : Bool) (fname : List Char) (e : OsErr)
    (pre : List (List Char)) (st : St) (hpre : runLines v pre = .ok st) :
    checkNodeFile v fname NodeFile.notFound
      = .ok (2, [checkingMsg fname, fatalMsg fname])
    ∧ diagLines [checkingMsg fname, fatalMsg fname] = []
    ∧ (startsWith ("Finished.".toList) (checkingMsg fname)
         || startsWith ("Finished.".toList) (fatalMsg fname)) = false
    ∧ checkNodeFile v fname (NodeFile.openFails e) = .error (Uncaught.io e)
    ∧ checkNodeFile v fname (NodeFile.readFails pre e) = .error (Uncaught.io e) := by
  refine ⟨rfl, rfl, rfl, rfl, ?_⟩
  have hck : checkNodeFile v fname (NodeFile.readFails pre e)
      = match runLines v pre with
        | .ok _ => .error (.io e)
        | .error pe => .error (.py pe) := rfl
  rw [hck, hpre]

/-- Claim C4 witness: a nonexistent file gives exit 2 with the fatal
message, while a permission failure on the same name is an uncaught
exception, and a decode failure after zero readable lines likewise. -/
theorem c4_fatal_witness :
    checkNodeFile false ("f".toList) NodeFile.notFound
      = .ok (2, [checkingMsg ("f".toList), fatalMsg ("f".toList)])
    ∧ diagLines [checkingMsg ("f".toList), fatalMsg ("f".toList)] = []
    ∧ (startsWith ("Finished.".toList) (checkingMsg ("f".toList))
         || startsWith ("Finished.".toList) (fatalMsg ("f".toList))) = false
    ∧ checkNodeFile false ("f".toList) (NodeFile.openFails OsErr.isADirectoryError)
        = .error (Uncaught.io OsErr.isADirectoryError)
    ∧ checkNodeFile false ("f".toList)
          (NodeFile.readFails [] OsErr.unicodeDecodeError)
        = .error (Uncaught.io OsErr.unicodeDecodeError) :=
  ⟨(c4_fatal false ("f".toList) OsErr.isADirectoryError [] initSt rfl).1,
   (c4_fatal false ("f".toList) OsErr.isADirectoryError [] initSt rfl).2.1,
   (c4_fatal false ("f".toList) OsErr.isADirectoryError [] initSt rfl).2.2.1,
   (c4_fatal false ("f".toList) OsErr.isADirectoryError [] initSt rfl).2.2.2.1,
   (c4_fatal false ("f".toList) OsErr.unicodeDecodeError [] initSt rfl).2.2.2.2⟩

/-- Claim C5: across any successful stretch of the scan, every binding
already present in the id, name, or address dict is still present unchanged
afterwards — collisions are reported without overwriting. -/
theorem c5_first_writer_wins (v : Bool) (n : Nat) (st : St) (lines : List (List Char))
    (st' : St) (h : runFrom v n st lines = .ok st') :
    (∀ k val, dlookup st.nodeid_to_line k = some val →
       dlookup st'.nodeid_to_line k = some val)
    ∧ (∀ k val, dlookup st.nodename_to_line k = some val →
       dlookup st'.nodename_to_line k = some val)
    ∧ (∀ k val, dlookup st.ipaddr_to_nodename k = some val →
       dlookup st'.ipaddr_to_nodename k = some val) :=
  runFrom_pres lines n st st' h

/-- Claim C5 witness: replaying the already-registered id 5 from midSt
reports the collision yet leaves the stored binding (line 1) unchanged. -/
theorem c5_first_writer_wins_witness :
    dlookup ({ midSt with
                 node_id := some "5".toList,
                 errors := midSt.errors + 1,
                 output := (midSt.output ++ (if false then [idMsg ("5".toList)] else []))
                             ++ [dupIdMsg ("1".toList) ("4".toList) ("5".toList)] }
               : St).nodeid_to_line ("5".toList)
      = some (some ("1".toList)) :=
  (c5_first_writer_wins false 1 midSt ["id 5".toList] _ rfl).1
    ("5".toList) (some ("1".toList)) rfl

/-- Claim C6 counterexample: neither `begin node extra` (extra token after
node) nor a tab-separated begin/node line is counted as a record start —
after both lines node_count is still 0, where the claim predicts 2. -/
theorem c6_counterexample :
    (runLines false looseBeginFile).map St.node_count = .ok 0 := rfl

/-- Claim C6 (amended): a line is counted as a record start (node_count up
by one and the active start line set to the current line number) exactly
when the whitespace-trimmed line is literally begin-space-node: the text
before the first space must be begin and the text after the first space
must be exactly node, so extra tokens or a non-space separator do not
match. -/
theorem c6_begin_node_exact (v : Bool) (n : Nat) (raw : List Char) (st : St) :
    (pyStrip raw = "begin node".toList →
       step v n raw st
         = .ok { st with
                   node_count := st.node_count + 1,
                   node_start_line := some (natChars n),
                   output := st.output ++ (if v then [newNodeMsg n] else []) })
    ∧ (pyStrip raw ≠ "begin node".toList →
       ∀ st', step v n raw st = .ok st' → st'.node_count = st.node_count) := by
  constructor
  · intro hs
    unfold step
    rw [hs]
    exact stepParts_begin_node v n st
  · intro hs st' hstep
    unfold step at hstep
    have hnb : ¬((pyPart (pyStrip raw)).1 = "begin".toList
                  ∧ (pyPart (pyStrip raw)).2 = "node".toList) := by
      intro hx
      have hp : pyPart (pyStrip raw) = ("begin".toList, "node".toList) := by
        rw [← hx.1, ← hx.2]
      rcases pyPart_shape (pyStrip raw) _ _ hp with hcase | hcase
      · exact hs (hcase.trans (by decide))
      · exact absurd hcase.2 (by decide)
    exact (stepParts_frame hstep).2.2.2 hnb

/-- Claim C6 witness: the exact line begin-space-node is counted, with the
start line set and the verbose message emitted. -/
theorem c6_begin_node_exact_witness :
    step true 1 ("begin node".toList) initSt
      = .ok { initSt with
                node_count := initSt.node_count + 1,
                node_start_line := some (natChars 1),
                output := initSt.output ++ (if true then [newNodeMsg 1] else []) } :=
  (c6_begin_node_exact true 1 ("begin node".toList) initSt).1 rfl

/-- Claim C7 counterexample: a file consisting of one begin-node line has
zero begin/end pairs, yet the run ends with node_count 1, not 0. -/
theorem c7_counterexample :
    (runLines false unpairedBeginFile).map
        (fun st => (st.node_count, st.errors, st.warnings)) = .ok (1, 0, 0) := rfl

/-- Claim C7 (amended): for every file none of whose lines matches a
recognized pattern (no begin-node or end-node line and no id, name, or
address keyword — in particular the empty file), the scan ends in the
initial state: zero nodes, zero errors, zero warnings, exit code 0, and
the literal summary line with no separator before the warning count. -/
theorem c7_no_directives (v : Bool) (fname : List Char) (lines : List (List Char))
    (h : ∀ l ∈ lines, recognized l = false) :
    runLines v lines = .ok initSt
    ∧ checkNodeFile v fname (.found lines)
        = .ok (0, [checkingMsg fname, summaryMsg initSt])
    ∧ summaryMsg initSt = "Finished. 0 nodes, 0 errors0 warnings".toList := by
  have hr : runLines v lines = .ok initSt := runFrom_unrecognized v lines 1 initSt h
  refine ⟨hr, ?_, rfl⟩
  rw [checkNodeFile_found, hr]
  rfl

/-- Claim C7 witness: the empty file ends with all counters zero, exit 0,
and the literal summary. -/
theorem c7_no_directives_witness :
    runLines false [] = .ok initSt
    ∧ checkNodeFile false ("f".toList) (.found [])
        = .ok (0, [checkingMsg ("f".toList), summaryMsg initSt])
    ∧ summaryMsg initSt = "Finished. 0 nodes, 0 errors0 warnings".toList :=
  c7_no_directives false ("f".toList) []
    (fun l hl => absurd hl (List.not_mem_nil l))

/-- Claim C8: an address line whose value is already registered, processed
inside a named record whose prior claimant is named and registered, emits
exactly one WARNING in the documented format naming both nodes and both
start lines; the warning counter goes up by one and the error counter is
untouched, so this diagnostic alone never changes the outcome. -/
theorem c8_shared_address_warning (v : Bool) (n : Nat) (raw : List Char) (st : St)
    (a nm sl oth ol : List Char)
    (hline : pyPart (pyStrip raw) = ("address".toList, a))
    (hnm : st.node_name = some nm) (hsl : st.node_start_line = some sl)
    (hprev : dlookup st.ipaddr_to_nodename a = some (some oth))
    (hothl : dlookup st.nodename_to_line oth = some (some ol)) :
    step v n raw st
      = .ok { st with
                warnings := st.warnings + 1,
                output := (st.output ++ (if v then [addrMsg a] else []))
                            ++ [dupAddrMsg nm sl oth ol a] } := by
  have hstep : step v n raw st = addressStep v a st := by
    unfold step
    rw [hline]
    exact stepParts_address v n a st
  rw [hstep]
  unfold addressStep
  simp only [hprev, hothl, hnm, hsl]

/-- Claim C8 witness: from addrSt, the line address 10.0.0.1 collides with
the record moose (line 3) and produces exactly the documented warning. -/
theorem c8_shared_address_warning_witness :
    step false 9 ("address 10.0.0.1".toList) addrSt
      = .ok { addrSt with
                warnings := addrSt.warnings + 1,
                output := (addrSt.output
                             ++ (if false then [addrMsg ("10.0.0.1".toList)] else []))
                            ++ [dupAddrMsg ("elk".toList) ("7".toList)
                                  ("moose".toList) ("3".toList) ("10.0.0.1".toList)] } :=
  c8_shared_address_warning false 9 ("address 10.0.0.1".toList) addrSt
    ("10.0.0.1".toList) ("elk".toList) ("7".toList) ("moose".toList) ("3".toList)
    rfl rfl rfl rfl rfl

/-- Claim C9: a record-end line clears exactly the active record's id and
start line; the record's name, the counters other than warnings, and all
three dicts are left unchanged. -/
theorem c9_end_node_frame (v : Bool) (n : Nat) (raw : List Char) (st st' : St)
    (hline : pyPart (pyStrip raw) = ("end".toList, "node".toList))
    (h : step v n raw st = .ok st') :
    st'.node_id = none ∧ st'.node_start_line = none ∧ st'.node_name = st.node_name
    ∧ st'.node_count = st.node_count ∧ st'.errors = st.errors
    ∧ st'.nodename_to_line = st.nodename_to_line
    ∧ st'.ipaddr_to_nodename = st.ipaddr_to_nodename
    ∧ st'.nodeid_to_line = st.nodeid_to_line := by
  have hstep : step v n raw st = endNodeStep v n st := by
    unfold step
    rw [hline]
    exact stepParts_end_node v n st
  rw [hstep] at h
  exact endNodeStep_frame h

/-- Claim C9 witness: ending the record of endSt clears id and start line
and keeps its name and dicts. -/
theorem c9_end_node_frame_witness :
    endSt'.node_id = none ∧ endSt'.node_start_line = none
    ∧ endSt'.node_name = endSt.node_name
    ∧ endSt'.node_count = endSt.node_count ∧ endSt'.errors = endSt.errors
    ∧ endSt'.nodename_to_line = endSt.nodename_to_line
    ∧ endSt'.ipaddr_to_nodename = endSt.ipaddr_to_nodename
    ∧ endSt'.nodeid_to_line = endSt.nodeid_to_line :=
  c9_end_node_frame false 6 ("end node".toList) endSt endSt' rfl rfl

/-- Claim C10: running the scan verbose and quiet on the same file gives the
same counters, the same per-record variables and dicts, the same
WARNING/ERROR diagnostic lines in the same order (or the same uncaught
exception), and the same exit code — verbose mode only adds informational
lines. -/
theorem c10_verbose_invariant (fname : List Char) (lines : List (List Char)) :
    (runLines true lines).map obs = (runLines false lines).map obs
    ∧ (checkNodeFile true fname (.found lines)).map Prod.fst
        = (checkNodeFile false fname (.found lines)).map Prod.fst := by
  have hobs : (runLines true lines).map obs = (runLines false lines).map obs :=
    runFrom_sim true false lines 1 initSt initSt rfl
  refine ⟨hobs, ?_⟩
  rw [checkNodeFile_found, checkNodeFile_found]
  cases h₁ : runLines true lines with
  | ok s₁ =>
    cases h₂ : runLines false lines with
    | ok s₂ =>
      rw [h₁, h₂] at hobs
      simp only [Except.map] at hobs
      injection hobs with hobs
      have herr : s₁.errors = s₂.errors := congrArg (fun t => t.2.2.1) hobs
      simp [Except.map, herr]
    | error e =>
      rw [h₁, h₂] at hobs
      simp [Except.map] at hobs
  | error e =>
    cases h₂ : runLines false lines with
    | ok s₂ =>
      rw [h₁, h₂] at hobs
      simp [Except.map] at hobs
    | error e₂ =>
      rw [h₁, h₂] at hobs
      simp only [Except.map] at hobs
      injection hobs with hobs
      simp [Except.map, hobs]
